import Mathlib

/-!
Verification of the atscppapi wrapper core: the `Request` message
descriptor (src/src/Request.cc), the `Plugin` default hook handlers
(src/src/include/atscppapi/Plugin.h), and the case-insensitive
header-name comparator
(src/src/include/atscppapi/CaseInsensitiveStringComparator.h).

The proxy engine (the Traffic Server C API: `TS*` calls) is external to
the wrapper; it is modelled as an oracle structure recording the result
of each engine call `Request.cc` makes.  Handles (`TSMBuffer`, `TSMLoc`)
are opaque non-null pointers, modelled as natural numbers; `Option`
models nullability.
-/

/-- An engine handle (`TSMBuffer` / `TSMLoc`): an opaque non-null
pointer, modelled as a natural number.  `Option Handle` models a
nullable handle, `none` standing for `NULL`. -/
abbrev Handle := Nat

/-- The `HttpMethod` enumeration of the library, as used by
`Request::getMethod` (Request.cc lines 103-123). -/
inductive HttpMethod
  | UNKNOWN
  | GET
  | POST
  | HEAD
  | CONNECT
  | DELETE
  | ICP_QUERY
  | OPTIONS
  | PURGE
  | PUT
  | TRACE
deriving DecidableEq, Repr

/-- The `HttpVersion` enumeration of the library (only the default
`UNKNOWN` and a few concrete versions are needed here). -/
inductive HttpVersion
  | UNKNOWN
  | HTTP_0_9
  | HTTP_1_0
  | HTTP_1_1
deriving DecidableEq, Repr

/-- A log event emitted through the `LOG_ERROR` / `LOG_DEBUG` macros.
The message strings name the emitting site in `Request.cc`. -/
inductive LogEvent
  | error (msg : String)
  | debug (msg : String)
deriving DecidableEq, Repr

/-- Modelled from the spec: `InitializableValue<T>`
(`InitializableValue.h` is not among the sampled sources) — a tagged
value that is either uninitialized, holding a well-defined default, or
initialized; `setValue` (and assignment, which forwards to it) stores a
value and marks the field initialized, and the implicit conversion used
by `return state_->method_;` yields the stored value. -/
structure InitializableValue (α : Type) where
  value : α
  initialized : Bool
deriving DecidableEq, Repr

/-- `InitializableValue::setValue` / `operator=`: store the value and
mark the field initialized. -/
def InitializableValue.setValue {α : Type} (_ : InitializableValue α)
    (v : α) : InitializableValue α :=
  ⟨v, true⟩

/-- Modelled from the spec: the Header Collection's construction mode
(`Headers.h` is not among the sampled sources) — a collection starts
unattached, and `init` / `initDetached` put it permanently in attached
mode (bound to a buffer/location pair) or detached mode (private
in-memory store).  Only the mode and the attachment handles matter to
the claims considered here. -/
inductive HeadersState
  | unattached
  | detached
  | attached (hdr_buf : Option Handle) (hdr_loc : Option Handle)
deriving DecidableEq, Repr

/-- The private `RequestState` of Request.cc (lines 32-43).  The URL
View `url_` is kept abstractly as the handle pair it was initialized
with (`none` = never initialized, i.e. unset), since only its set/unset
state matters to the wrapper-level claims. -/
structure RequestState where
  hdr_buf : Option Handle
  hdr_loc : Option Handle
  url_loc : Option Handle
  url : Option (Option Handle × Option Handle)
  headers : HeadersState
  method : InitializableValue HttpMethod
  version : InitializableValue HttpVersion
  destroy_buf : Bool
deriving DecidableEq, Repr

/-- The `RequestState` default constructor (Request.cc lines 41-42),
as produced by `Request::Request()` (lines 45-47). -/
def RequestState.mk0 : RequestState :=
  { hdr_buf := none
    hdr_loc := none
    url_loc := none
    url := none
    headers := .unattached
    method := ⟨.UNKNOWN, false⟩
    version := ⟨.UNKNOWN, false⟩
    destroy_buf := false }

/-- The engine collaborator (the Traffic Server C API), as an oracle
giving the result of each engine call Request.cc makes:
`TSMBufferCreate`, `TSUrlCreate` (`some` = `TS_SUCCESS` with the
created location), `TSUrlParse` (`true` = `TS_PARSE_DONE`),
`TSHttpHdrUrlGet` (the url location written back, `none` = null),
`TSHttpHdrMethodGet` (the interned method token; `none` = null pointer,
`""` = zero length) and `utils::internal::getHttpVersion`. -/
structure Engine where
  mbufferCreate : Handle
  urlCreate : Handle → Option Handle
  urlParse : Handle → Handle → String → Bool
  httpHdrUrlGet : Option Handle → Option Handle → Option Handle
  httpHdrMethodGet : Option Handle → Option Handle → Option String
  getHttpVersion : Option Handle → Option Handle → HttpVersion

/-- `Request::init` (Request.cc lines 78-96).  Returns the state after
the call together with the emitted log. -/
def Request.init (e : Engine) (s : RequestState)
    (hdr_buf hdr_loc : Option Handle) : RequestState × List LogEvent :=
  if s.hdr_buf.isSome || s.hdr_loc.isSome then
    (s, [.error "Reinitialization"])
  else
    let s1 : RequestState :=
      { s with
        hdr_buf := hdr_buf
        hdr_loc := hdr_loc
        headers := .attached hdr_buf hdr_loc }
    match e.httpHdrUrlGet hdr_buf hdr_loc with
    | none =>
      ({ s1 with url_loc := none },
       [.error "TSHttpHdrUrlGet returned a null url loc"])
    | some l =>
      ({ s1 with url_loc := some l, url := some (hdr_buf, some l) },
       [.debug "Initialized url"])

/-- `Request::Request(const string &, HttpMethod, HttpVersion)`
(Request.cc lines 55-76): the standalone constructor. -/
def Request.mkStandalone (e : Engine) (url_str : String)
    (method : HttpMethod) (version : HttpVersion) :
    RequestState × List LogEvent :=
  let s : RequestState :=
    { RequestState.mk0 with
      method := ⟨method, true⟩
      version := ⟨version, true⟩
      destroy_buf := true
      hdr_buf := some e.mbufferCreate
      headers := .detached }
  match e.urlCreate e.mbufferCreate with
  | some loc =>
    if e.urlParse e.mbufferCreate loc url_str then
      ({ s with
         url_loc := some loc
         url := some (some e.mbufferCreate, some loc) }, [])
    else
      ({ s with url_loc := some loc },
       [.error "does not represent a valid url"])
  | none =>
    ({ s with url_loc := none },
     [.error "Could not create URL field"])

/-- The token-to-method branch chain of `Request::getMethod`
(Request.cc lines 103-123): the interned engine token is compared
against the ten known `TS_HTTP_METHOD_*` tokens; a recognized token is
assigned through `InitializableValue` (marking the field initialized),
and an unrecognized token assigns nothing. -/
def Request.methodFromToken (s : RequestState) (tok : String) :
    RequestState :=
  if tok = "GET" then { s with method := s.method.setValue .GET }
  else if tok = "POST" then { s with method := s.method.setValue .POST }
  else if tok = "HEAD" then { s with method := s.method.setValue .HEAD }
  else if tok = "CONNECT" then
    { s with method := s.method.setValue .CONNECT }
  else if tok = "DELETE" then
    { s with method := s.method.setValue .DELETE }
  else if tok = "ICP_QUERY" then
    { s with method := s.method.setValue .ICP_QUERY }
  else if tok = "OPTIONS" then
    { s with method := s.method.setValue .OPTIONS }
  else if tok = "PURGE" then { s with method := s.method.setValue .PURGE }
  else if tok = "PUT" then { s with method := s.method.setValue .PUT }
  else if tok = "TRACE" then { s with method := s.method.setValue .TRACE }
  else s

/-- The outcome of one `Request::getMethod` call: the state after the
call, the returned method, the number of `TSHttpHdrMethodGet` engine
reads the call performed, and the emitted log. -/
structure MethodResult where
  state : RequestState
  result : HttpMethod
  engineQueries : Nat
  log : List LogEvent
deriving DecidableEq, Repr

/-- `Request::getMethod` (Request.cc lines 98-130). -/
def Request.getMethod (e : Engine) (s : RequestState) : MethodResult :=
  if !s.method.initialized && s.hdr_buf.isSome && s.hdr_loc.isSome then
    match e.httpHdrMethodGet s.hdr_buf s.hdr_loc with
    | some tok =>
      if tok.length ≠ 0 then
        let s1 := Request.methodFromToken s tok
        ⟨s1, s1.method.value, 1, []⟩
      else
        ⟨s, s.method.value, 1,
         [.error "TSHttpHdrMethodGet returned null string or it was zero length"]⟩
    | none =>
      ⟨s, s.method.value, 1,
       [.error "TSHttpHdrMethodGet returned null string or it was zero length"]⟩
  else
    ⟨s, s.method.value, 0, []⟩

/-- The outcome of one `Request::getVersion` call, analogous to
`MethodResult`; `engineQueries` counts the calls to the version decoder
`utils::internal::getHttpVersion`. -/
structure VersionResult where
  state : RequestState
  result : HttpVersion
  engineQueries : Nat
  log : List LogEvent
deriving DecidableEq, Repr

/-- `Request::getVersion` (Request.cc lines 136-143). -/
def Request.getVersion (e : Engine) (s : RequestState) : VersionResult :=
  if !s.version.initialized && s.hdr_buf.isSome && s.hdr_loc.isSome then
    let v := e.getHttpVersion s.hdr_buf s.hdr_loc
    ⟨{ s with version := s.version.setValue v }, v, 1,
     [.debug "Initializing request version"]⟩
  else
    ⟨s, s.version.value, 0, []⟩

/-- An engine call performed by the destructor:
`TSHandleMLocRelease(buf, parent, loc)` or `TSMBufferDestroy(buf)`. -/
inductive EngineAction
  | releaseMLoc (hdr_buf : Option Handle) (parent : Option Handle)
      (loc : Handle)
  | destroyBuffer (hdr_buf : Option Handle)
deriving DecidableEq, Repr

/-- `Request::~Request` (Request.cc lines 149-164): the sequence of
engine calls the destructor performs (the trailing `delete state_` is
process-local and not an engine call). -/
def Request.destruct (s : RequestState) : List EngineAction :=
  match s.url_loc with
  | some u =>
    if s.destroy_buf then
      [.releaseMLoc s.hdr_buf none u, .destroyBuffer s.hdr_buf]
    else
      [.releaseMLoc s.hdr_buf s.hdr_loc u]
  | none => []

/-- The `Plugin::HookType` enumeration (Plugin.h lines 48-55). -/
inductive HookType
  | readRequestHeadersPreRemap
  | readRequestHeadersPostRemap
  | sendRequestHeaders
  | readResponseHeaders
  | sendResponseHeaders
  | osDns
deriving DecidableEq, Repr

/-- Modelled from the spec: the Transaction resume/terminate protocol
(`Transaction.h` is not among the sampled sources) — only the counts of
resume and terminate signals issued on a transaction matter to the
resume-exactly-once contract. -/
structure Transaction where
  resumeCalls : Nat
  terminateCalls : Nat
deriving DecidableEq, Repr

/-- Modelled from the spec: `Transaction::resume` issues one resume
signal. -/
def Transaction.resume (t : Transaction) : Transaction :=
  { t with resumeCalls := t.resumeCalls + 1 }

/-- Default body of `Plugin::handleReadRequestHeadersPreRemap`
(Plugin.h line 60): `{ transaction.resume(); }`. -/
def Plugin.handleReadRequestHeadersPreRemap (t : Transaction) :
    Transaction :=
  t.resume

/-- Default body of `Plugin::handleReadRequestHeadersPostRemap`
(Plugin.h line 65). -/
def Plugin.handleReadRequestHeadersPostRemap (t : Transaction) :
    Transaction :=
  t.resume

/-- Default body of `Plugin::handleSendRequestHeaders`
(Plugin.h line 70). -/
def Plugin.handleSendRequestHeaders (t : Transaction) : Transaction :=
  t.resume

/-- Default body of `Plugin::handleReadResponseHeaders`
(Plugin.h line 75). -/
def Plugin.handleReadResponseHeaders (t : Transaction) : Transaction :=
  t.resume

/-- Default body of `Plugin::handleSendResponseHeaders`
(Plugin.h line 80). -/
def Plugin.handleSendResponseHeaders (t : Transaction) : Transaction :=
  t.resume

/-- Default body of `Plugin::handleOsDns` (Plugin.h line 85). -/
def Plugin.handleOsDns (t : Transaction) : Transaction :=
  t.resume

/-- The default (non-overridden) handler for each hook phase, as
declared in Plugin.h lines 60-85. -/
def Plugin.defaultHandler : HookType → Transaction → Transaction
  | .readRequestHeadersPreRemap => Plugin.handleReadRequestHeadersPreRemap
  | .readRequestHeadersPostRemap => Plugin.handleReadRequestHeadersPostRemap
  | .sendRequestHeaders => Plugin.handleSendRequestHeaders
  | .readResponseHeaders => Plugin.handleReadResponseHeaders
  | .sendResponseHeaders => Plugin.handleSendResponseHeaders
  | .osDns => Plugin.handleOsDns

/- A byte string (`std::string` holds raw bytes) is modelled as a
`List Nat` of byte values. -/

namespace CaseInsensitiveStringComparator

/-- Modelled from the spec: per-byte ASCII case folding (the
comparator's implementation file is not among the sampled sources;
CaseInsensitiveStringComparator.h declares only the interface).
Uppercase ASCII letters (bytes 65-90) fold to lowercase; every other
byte, non-ASCII included, is left at its raw value. -/
def foldByte (b : Nat) : Nat :=
  if 65 ≤ b ∧ b ≤ 90 then b + 32 else b

/-- Case folding of a whole byte string. -/
def foldCase (s : List Nat) : List Nat :=
  s.map foldByte

/-- Modelled from the spec:
`CaseInsensitiveStringComparator::compare` — strcmp-style
lexicographic comparison after per-byte ASCII case folding
(negative = less, zero = equal, positive = greater). -/
def compare : List Nat → List Nat → Int
  | [], [] => 0
  | [], _ :: _ => -1
  | _ :: _, [] => 1
  | a :: as, b :: bs =>
    if foldByte a < foldByte b then -1
    else if foldByte b < foldByte a then 1
    else compare as bs

/-- Modelled from the spec:
`CaseInsensitiveStringComparator::operator()` — the boolean less-than
derived from `compare` being negative. -/
def lt (a b : List Nat) : Bool :=
  decide (compare a b < 0)

end CaseInsensitiveStringComparator


/-! ## Concrete engine oracles and states used by witnesses and counterexamples -/

/-- Engine oracle used by the C2 witness. -/
def c2Engine : Engine :=
  { mbufferCreate := 1
    urlCreate := fun _ => none
    urlParse := fun _ _ _ => false
    httpHdrUrlGet := fun _ _ => some 3
    httpHdrMethodGet := fun _ _ => none
    getHttpVersion := fun _ _ => .UNKNOWN }

/-- A Request attached to handles (1, 2), for the C2 witness. -/
def c2State : RequestState :=
  (Request.init c2Engine RequestState.mk0 (some 1) (some 2)).1

/-- Engine oracle used by the C7 witness: URL extraction fails. -/
def c7Engine : Engine :=
  { mbufferCreate := 1
    urlCreate := fun _ => none
    urlParse := fun _ _ _ => false
    httpHdrUrlGet := fun _ _ => none
    httpHdrMethodGet := fun _ _ => none
    getHttpVersion := fun _ _ => .UNKNOWN }

/-- Engine oracle used by the C6 witness: URL location creation
succeeds but parsing fails. -/
def c6Engine : Engine :=
  { mbufferCreate := 1
    urlCreate := fun _ => some 2
    urlParse := fun _ _ _ => false
    httpHdrUrlGet := fun _ _ => none
    httpHdrMethodGet := fun _ _ => none
    getHttpVersion := fun _ _ => .UNKNOWN }

/-- The fixed table of known method tokens of `Request::getMethod`
(Request.cc lines 103-123), pairing each interned `TS_HTTP_METHOD_*`
token with its enumerated method value. -/
def methodTable : List (String × HttpMethod) :=
  [("GET", .GET), ("POST", .POST), ("HEAD", .HEAD), ("CONNECT", .CONNECT),
   ("DELETE", .DELETE), ("ICP_QUERY", .ICP_QUERY), ("OPTIONS", .OPTIONS),
   ("PURGE", .PURGE), ("PUT", .PUT), ("TRACE", .TRACE)]

/-- First-match association lookup in a token table. -/
def lookupToken : List (String × HttpMethod) → String → Option HttpMethod
  | [], _ => none
  | (k, m) :: rest, t => if t = k then some m else lookupToken rest t

/-- Engine oracle used for C1: the method token read back is "FOO",
outside the known token set. -/
def c1Engine : Engine :=
  { mbufferCreate := 1
    urlCreate := fun _ => none
    urlParse := fun _ _ _ => false
    httpHdrUrlGet := fun _ _ => some 3
    httpHdrMethodGet := fun _ _ => some "FOO"
    getHttpVersion := fun _ _ => .UNKNOWN }

/-- A Request attached to handles (1, 2) on `c1Engine`. -/
def c1State : RequestState :=
  (Request.init c1Engine RequestState.mk0 (some 1) (some 2)).1

/-- Engine oracle used for C3: `TSUrlCreate` fails, so a standalone
construction ends with a null `url_loc_`. -/
def c3Engine : Engine :=
  { mbufferCreate := 1
    urlCreate := fun _ => none
    urlParse := fun _ _ _ => false
    httpHdrUrlGet := fun _ _ => none
    httpHdrMethodGet := fun _ _ => none
    getHttpVersion := fun _ _ => .UNKNOWN }

/-- A standalone-constructed Request on `c3Engine`: it owns its buffer
but its `url_loc_` is null. -/
def c3State : RequestState :=
  (Request.mkStandalone c3Engine "http://example.com/x" .GET .HTTP_1_1).1

/-- Engine oracle used by the C3 witness: URL creation and extraction
both succeed. -/
def c3wEngine : Engine :=
  { mbufferCreate := 1
    urlCreate := fun _ => some 5
    urlParse := fun _ _ _ => true
    httpHdrUrlGet := fun _ _ => some 7
    httpHdrMethodGet := fun _ _ => none
    getHttpVersion := fun _ _ => .UNKNOWN }

/-- Engine oracle used by the C4 witness: the method token read back is
the known token "PUT". -/
def c4Engine : Engine :=
  { mbufferCreate := 1
    urlCreate := fun _ => none
    urlParse := fun _ _ _ => false
    httpHdrUrlGet := fun _ _ => some 3
    httpHdrMethodGet := fun _ _ => some "PUT"
    getHttpVersion := fun _ _ => .UNKNOWN }

/-- A Request attached to handles (1, 2) on `c4Engine`. -/
def c4State : RequestState :=
  (Request.init c4Engine RequestState.mk0 (some 1) (some 2)).1

/-- Engine oracle used for C10: URL extraction yields no location (the
realistic outcome for null header handles). -/
def c10Engine : Engine :=
  { mbufferCreate := 1
    urlCreate := fun _ => none
    urlParse := fun _ _ _ => false
    httpHdrUrlGet := fun _ _ => none
    httpHdrMethodGet := fun _ _ => none
    getHttpVersion := fun _ _ => .UNKNOWN }

/-! ## Helper lemmas for the case-insensitive comparator -/

namespace CaseInsensitiveStringComparator

theorem compare_eq_zero_iff (a b : List Nat) :
    compare a b = 0 ↔ foldCase a = foldCase b := by
  induction a generalizing b with
  | nil =>
    cases b with
    | nil => simp [compare, foldCase]
    | cons y ys => simp [compare, foldCase]
  | cons x xs ih =>
    cases b with
    | nil => simp [compare, foldCase]
    | cons y ys =>
      simp only [compare, foldCase, List.map_cons, List.cons.injEq]
      split_ifs with h1 h2
      · constructor
        · intro h; exact absurd h (by decide)
        · rintro ⟨hxy, -⟩; omega
      · constructor
        · intro h; exact absurd h (by decide)
        · rintro ⟨hxy, -⟩; omega
      · have hxy : foldByte x = foldByte y := by omega
        have h3 := ih ys
        simp only [foldCase] at h3
        simp [hxy, h3]

theorem compare_swap (a b : List Nat) : compare a b = - compare b a := by
  induction a generalizing b with
  | nil => cases b <;> simp [compare]
  | cons x xs ih =>
    cases b with
    | nil => simp [compare]
    | cons y ys =>
      rcases Nat.lt_trichotomy (foldByte x) (foldByte y) with h | h | h
      · simp [compare, h, Nat.lt_asymm h]
      · simp only [compare, h, lt_self_iff_false, if_false]
        exact ih ys
      · simp [compare, h, Nat.lt_asymm h]

theorem compare_lt_trans {a b c : List Nat} (hab : compare a b < 0)
    (hbc : compare b c < 0) : compare a c < 0 := by
  induction a generalizing b c with
  | nil =>
    cases b with
    | nil => exact absurd hab (by simp [compare])
    | cons y ys =>
      cases c with
      | nil => exact absurd hbc (by simp [compare])
      | cons z zs => simp [compare]
  | cons x xs ih =>
    cases b with
    | nil => exact absurd hab (by simp [compare])
    | cons y ys =>
      cases c with
      | nil => exact absurd hbc (by simp [compare])
      | cons z zs =>
        rcases Nat.lt_trichotomy (foldByte x) (foldByte y) with h1 | h1 | h1
        · rcases Nat.lt_trichotomy (foldByte y) (foldByte z) with h2 | h2 | h2
          · have hxz : foldByte x < foldByte z := by omega
            simp [compare, hxz]
          · have hxz : foldByte x < foldByte z := by omega
            simp [compare, hxz]
          · have hnyz : ¬ foldByte y < foldByte z := Nat.lt_asymm h2
            simp only [compare, if_neg hnyz, if_pos h2] at hbc
            exact absurd hbc (by decide)
        · rcases Nat.lt_trichotomy (foldByte y) (foldByte z) with h2 | h2 | h2
          · have hxz : foldByte x < foldByte z := by omega
            simp [compare, hxz]
          · have hxz : foldByte x = foldByte z := h1.trans h2
            simp only [compare, h1, lt_self_iff_false, if_false] at hab
            simp only [compare, h2, lt_self_iff_false, if_false] at hbc
            simp only [compare, hxz, lt_self_iff_false, if_false]
            exact ih hab hbc
          · have hnyz : ¬ foldByte y < foldByte z := Nat.lt_asymm h2
            simp only [compare, if_neg hnyz, if_pos h2] at hbc
            exact absurd hbc (by decide)
        · have hnxy : ¬ foldByte x < foldByte y := Nat.lt_asymm h1
          simp only [compare, if_neg hnxy, if_pos h1] at hab
          exact absurd hab (by decide)

end CaseInsensitiveStringComparator



set_option maxHeartbeats 2000000 in
/-- The branch chain of `Request::getMethod` agrees with the fixed
token table: a token found in the table stores the mapped value through
`InitializableValue`. -/
theorem methodFromToken_known (s : RequestState) (t : String)
    (m : HttpMethod) (h : lookupToken methodTable t = some m) :
    Request.methodFromToken s t =
      { s with method := s.method.setValue m } := by
  simp only [methodTable, lookupToken] at h
  unfold Request.methodFromToken
  split_ifs at h ⊢
  all_goals simp_all

set_option maxHeartbeats 2000000 in
/-- A token outside the fixed table leaves the request state untouched
(in particular the method cache stays uninitialized). -/
theorem methodFromToken_unknown (s : RequestState) (t : String)
    (h : lookupToken methodTable t = none) :
    Request.methodFromToken s t = s := by
  simp only [methodTable, lookupToken] at h
  unfold Request.methodFromToken
  split_ifs at h ⊢
  all_goals simp_all

/-! ## Claim theorems -/

/-- C9: for all byte strings `a`, `b`, the case-insensitive comparator
satisfies `compare a b = 0` iff `a` and `b` are equal after per-byte
ASCII case folding; the boolean less-than `operator()` agrees with
`compare` being negative; and the resulting relation is a strict weak
order: irreflexive, transitive, and with transitive (fold-case
consistent) incomparability. -/
theorem c9_comparator_strict_weak_order (a b c : List Nat) :
    (CaseInsensitiveStringComparator.compare a b = 0 ↔
      CaseInsensitiveStringComparator.foldCase a =
        CaseInsensitiveStringComparator.foldCase b) ∧
    (CaseInsensitiveStringComparator.lt a b = true ↔
      CaseInsensitiveStringComparator.compare a b < 0) ∧
    CaseInsensitiveStringComparator.lt a a = false ∧
    (CaseInsensitiveStringComparator.lt a b = true →
      CaseInsensitiveStringComparator.lt b c = true →
      CaseInsensitiveStringComparator.lt a c = true) ∧
    (CaseInsensitiveStringComparator.lt a b = false →
      CaseInsensitiveStringComparator.lt b a = false →
      CaseInsensitiveStringComparator.lt b c = false →
      CaseInsensitiveStringComparator.lt c b = false →
      CaseInsensitiveStringComparator.lt a c = false ∧
        CaseInsensitiveStringComparator.lt c a = false) := by
  refine ⟨CaseInsensitiveStringComparator.compare_eq_zero_iff a b,
    by simp [CaseInsensitiveStringComparator.lt], ?_, ?_, ?_⟩
  · have h := (CaseInsensitiveStringComparator.compare_eq_zero_iff a a).mpr rfl
    simp [CaseInsensitiveStringComparator.lt, h]
  · intro h1 h2
    simp only [CaseInsensitiveStringComparator.lt, decide_eq_true_eq] at h1 h2 ⊢
    exact CaseInsensitiveStringComparator.compare_lt_trans h1 h2
  · intro h1 h2 h3 h4
    simp only [CaseInsensitiveStringComparator.lt, decide_eq_false_iff_not,
      not_lt] at h1 h2 h3 h4 ⊢
    have hs1 := CaseInsensitiveStringComparator.compare_swap a b
    have hs2 := CaseInsensitiveStringComparator.compare_swap b c
    have hab : CaseInsensitiveStringComparator.compare a b = 0 := by omega
    have hbc : CaseInsensitiveStringComparator.compare b c = 0 := by omega
    have hac : CaseInsensitiveStringComparator.compare a c = 0 := by
      rw [CaseInsensitiveStringComparator.compare_eq_zero_iff] at hab hbc ⊢
      exact hab.trans hbc
    have hs3 := CaseInsensitiveStringComparator.compare_swap a c
    constructor <;> omega

/-- C9 witness: concrete instances — `compare "A" "a" = 0` (fold-case
equality), `lt "A" "b"` agrees with a negative compare, and
transitivity at `"A" < "b" < "c"`. -/
theorem c9_witness :
    CaseInsensitiveStringComparator.compare [65] [97] = 0 ∧
    CaseInsensitiveStringComparator.lt [65] [98] = true ∧
    CaseInsensitiveStringComparator.lt [98] [99] = true ∧
    CaseInsensitiveStringComparator.lt [65] [99] = true := by
  refine ⟨(c9_comparator_strict_weak_order [65] [97] []).1.mpr (by decide),
    by decide, by decide, ?_⟩
  exact (c9_comparator_strict_weak_order [65] [98] [99]).2.2.2.1
    (by decide) (by decide)

/-- C8: for every lifecycle phase in the hook enumeration, the default
(non-overridden) Plugin handler calls `Transaction::resume` exactly
once (the resume count rises by one) and performs no other action on
the transaction (the terminate count is untouched). -/
theorem c8_default_handler_resumes_once (h : HookType) (t : Transaction) :
    Plugin.defaultHandler h t =
      { resumeCalls := t.resumeCalls + 1
        terminateCalls := t.terminateCalls } := by
  cases h <;> rfl

/-- C2: a second `init` call on a Request already attached to engine
handles leaves the whole stored state — buffer handle, location handle,
and all cached fields (method, version, URL view, headers) — exactly as
it was and logs the reinitialization error.  `Request.init` is a total
function, so the call returns normally (no abort). -/
theorem c2_second_init_noop (e : Engine) (s : RequestState) (b l : Handle)
    (hb : s.hdr_buf = some b) (hl : s.hdr_loc = some l)
    (buf2 loc2 : Option Handle) :
    Request.init e s buf2 loc2 = (s, [.error "Reinitialization"]) := by
  simp [Request.init, hb, hl]

/-- C2 witness: a concrete attached request whose second `init` is a
logged no-op. -/
theorem c2_witness :
    Request.init c2Engine c2State (some 9) (some 9) =
      (c2State, [.error "Reinitialization"]) :=
  c2_second_init_noop c2Engine c2State 1 2 (by decide) (by decide)
    (some 9) (some 9)

/-- C7: the first `init` on an unattached Request for which the
engine's URL extraction returns no location still succeeds: the handles
are stored, the header collection is attached to the same
buffer/location, `owns_buffer` stays false, an error is logged, and
only the URL view (and its location) remains unset. -/
theorem c7_init_urlget_failure (e : Engine) (s : RequestState)
    (b l : Handle)
    (hb : s.hdr_buf = none) (hl : s.hdr_loc = none)
    (hurl : s.url = none) (hdb : s.destroy_buf = false)
    (hu : e.httpHdrUrlGet (some b) (some l) = none) :
    (Request.init e s (some b) (some l)).1.hdr_buf = some b ∧
    (Request.init e s (some b) (some l)).1.hdr_loc = some l ∧
    (Request.init e s (some b) (some l)).1.headers =
      HeadersState.attached (some b) (some l) ∧
    (Request.init e s (some b) (some l)).1.url = none ∧
    (Request.init e s (some b) (some l)).1.url_loc = none ∧
    (Request.init e s (some b) (some l)).1.destroy_buf = false ∧
    (Request.init e s (some b) (some l)).2 =
      [.error "TSHttpHdrUrlGet returned a null url loc"] := by
  simp [Request.init, hb, hl, hu, hurl, hdb]

/-- C7 witness: concrete first `init` with failing URL extraction. -/
theorem c7_witness :
    (Request.init c7Engine RequestState.mk0 (some 4) (some 5)).1.hdr_buf =
      some 4 ∧
    (Request.init c7Engine RequestState.mk0 (some 4) (some 5)).1.hdr_loc =
      some 5 ∧
    (Request.init c7Engine RequestState.mk0 (some 4) (some 5)).1.headers =
      HeadersState.attached (some 4) (some 5) ∧
    (Request.init c7Engine RequestState.mk0 (some 4) (some 5)).1.url =
      none ∧
    (Request.init c7Engine RequestState.mk0 (some 4) (some 5)).1.url_loc =
      none ∧
    (Request.init c7Engine RequestState.mk0 (some 4) (some 5)).1.destroy_buf =
      false ∧
    (Request.init c7Engine RequestState.mk0 (some 4) (some 5)).2 =
      [.error "TSHttpHdrUrlGet returned a null url loc"] :=
  c7_init_urlget_failure c7Engine RequestState.mk0 4 5 rfl rfl rfl rfl rfl

/-- C5: the standalone constructor marks method and version initialized
with the constructor-supplied values, allocates a private buffer
(`destroy_buf = true`, i.e. `owns_buffer`), creates the header
collection detached, and subsequent `getMethod` / `getVersion` calls
return the supplied values with zero engine queries. -/
theorem c5_standalone_prefilled (e : Engine) (url : String)
    (m : HttpMethod) (v : HttpVersion) :
    (Request.mkStandalone e url m v).1.method = ⟨m, true⟩ ∧
    (Request.mkStandalone e url m v).1.version = ⟨v, true⟩ ∧
    (Request.mkStandalone e url m v).1.destroy_buf = true ∧
    (Request.mkStandalone e url m v).1.hdr_buf = some e.mbufferCreate ∧
    (Request.mkStandalone e url m v).1.headers = HeadersState.detached ∧
    Request.getMethod e (Request.mkStandalone e url m v).1 =
      ⟨(Request.mkStandalone e url m v).1, m, 0, []⟩ ∧
    Request.getVersion e (Request.mkStandalone e url m v).1 =
      ⟨(Request.mkStandalone e url m v).1, v, 0, []⟩ := by
  have hfields : (Request.mkStandalone e url m v).1.method = ⟨m, true⟩ ∧
      (Request.mkStandalone e url m v).1.version = ⟨v, true⟩ ∧
      (Request.mkStandalone e url m v).1.destroy_buf = true ∧
      (Request.mkStandalone e url m v).1.hdr_buf = some e.mbufferCreate ∧
      (Request.mkStandalone e url m v).1.headers = HeadersState.detached := by
    unfold Request.mkStandalone
    cases e.urlCreate e.mbufferCreate with
    | none => simp
    | some loc =>
      by_cases hp : e.urlParse e.mbufferCreate loc url <;> simp [hp]
  obtain ⟨h1, h2, h3, h4, h5⟩ := hfields
  refine ⟨h1, h2, h3, h4, h5, ?_, ?_⟩
  · simp [Request.getMethod, h1]
  · simp [Request.getVersion, h2]

/-- C6: standalone construction with a URL string the engine fails to
parse still yields a valid descriptor: the parse error is logged, the
URL view remains unset, and the detached header collection and the
constructor-supplied method/version stay usable (returned with zero
engine queries). -/
theorem c6_unparseable_url_usable (e : Engine) (url : String)
    (m : HttpMethod) (v : HttpVersion) (loc : Handle)
    (hc : e.urlCreate e.mbufferCreate = some loc)
    (hp : e.urlParse e.mbufferCreate loc url = false) :
    (Request.mkStandalone e url m v).2 =
      [.error "does not represent a valid url"] ∧
    (Request.mkStandalone e url m v).1.url = none ∧
    (Request.mkStandalone e url m v).1.method = ⟨m, true⟩ ∧
    (Request.mkStandalone e url m v).1.version = ⟨v, true⟩ ∧
    (Request.mkStandalone e url m v).1.headers = HeadersState.detached ∧
    Request.getMethod e (Request.mkStandalone e url m v).1 =
      ⟨(Request.mkStandalone e url m v).1, m, 0, []⟩ ∧
    Request.getVersion e (Request.mkStandalone e url m v).1 =
      ⟨(Request.mkStandalone e url m v).1, v, 0, []⟩ := by
  have hst : Request.mkStandalone e url m v =
      ({ hdr_buf := some e.mbufferCreate
         hdr_loc := none
         url_loc := some loc
         url := none
         headers := .detached
         method := ⟨m, true⟩
         version := ⟨v, true⟩
         destroy_buf := true },
       [.error "does not represent a valid url"]) := by
    unfold Request.mkStandalone
    rw [hc]
    simp [hp, RequestState.mk0]
  rw [hst]
  simp [Request.getMethod, Request.getVersion]

/-- C6 witness: concrete standalone construction with an unparseable
URL string. -/
theorem c6_witness :
    (Request.mkStandalone c6Engine "::::not a url" .POST .HTTP_1_1).2 =
      [.error "does not represent a valid url"] ∧
    (Request.mkStandalone c6Engine "::::not a url" .POST .HTTP_1_1).1.url =
      none ∧
    (Request.mkStandalone c6Engine "::::not a url" .POST .HTTP_1_1).1.method =
      ⟨.POST, true⟩ ∧
    (Request.mkStandalone c6Engine "::::not a url" .POST .HTTP_1_1).1.version =
      ⟨.HTTP_1_1, true⟩ ∧
    (Request.mkStandalone c6Engine "::::not a url" .POST .HTTP_1_1).1.headers =
      HeadersState.detached ∧
    Request.getMethod c6Engine
        (Request.mkStandalone c6Engine "::::not a url" .POST .HTTP_1_1).1 =
      ⟨(Request.mkStandalone c6Engine "::::not a url" .POST .HTTP_1_1).1,
       .POST, 0, []⟩ ∧
    Request.getVersion c6Engine
        (Request.mkStandalone c6Engine "::::not a url" .POST .HTTP_1_1).1 =
      ⟨(Request.mkStandalone c6Engine "::::not a url" .POST .HTTP_1_1).1,
       .HTTP_1_1, 0, []⟩ :=
  c6_unparseable_url_usable c6Engine "::::not a url" .POST .HTTP_1_1 2
    rfl rfl

/-- C4: on a Request with a valid handle pair and an uninitialized
method cache, `getMethod` reads the raw token from the engine and maps
it through the fixed table of known tokens, any token outside the table
(including a null or zero-length read) yielding the UNKNOWN default;
and on a Request with no handle and a never-initialized method field it
returns UNKNOWN without querying the engine. -/
theorem c4_method_token_table (e : Engine) (s : RequestState)
    (hm : s.method = ⟨.UNKNOWN, false⟩) :
    (s.hdr_buf.isSome = true → s.hdr_loc.isSome = true →
      (Request.getMethod e s).result =
        ((e.httpHdrMethodGet s.hdr_buf s.hdr_loc).bind
          (fun t => lookupToken methodTable t)).getD HttpMethod.UNKNOWN) ∧
    (s.hdr_buf = none →
      (Request.getMethod e s).result = HttpMethod.UNKNOWN ∧
      (Request.getMethod e s).engineQueries = 0) := by
  constructor
  · intro hb hl
    unfold Request.getMethod
    simp only [hm, hb, hl, Bool.not_false, Bool.and_self, if_true,
      Bool.true_and, Bool.and_true]
    cases htok : e.httpHdrMethodGet s.hdr_buf s.hdr_loc with
    | none => simp [hm]
    | some t =>
      by_cases hlen : t.length = 0
      · have ht : t = "" := by
          cases t with
          | mk data =>
            cases data with
            | nil => rfl
            | cons c cs => exact absurd hlen (by simp [String.length])
        subst ht
        simp [hm, show lookupToken methodTable "" = none from by decide]
      · simp only [hlen, ne_eq, not_false_eq_true, if_true]
        cases hlk : lookupToken methodTable t with
        | none =>
          rw [methodFromToken_unknown s t hlk]
          simp [hm, hlk]
        | some m =>
          rw [methodFromToken_known s t m hlk]
          simp [InitializableValue.setValue, hlk]
  · intro hb
    unfold Request.getMethod
    simp [hb, hm]

/-- C4 witness: a known token ("PUT") on an attached request, and the
no-handle default path. -/
theorem c4_witness :
    (Request.getMethod c4Engine c4State).result =
      ((c4Engine.httpHdrMethodGet c4State.hdr_buf c4State.hdr_loc).bind
        (fun t => lookupToken methodTable t)).getD HttpMethod.UNKNOWN ∧
    (Request.getMethod c4Engine RequestState.mk0).result =
      HttpMethod.UNKNOWN ∧
    (Request.getMethod c4Engine RequestState.mk0).engineQueries = 0 := by
  refine ⟨(c4_method_token_table c4Engine c4State (by decide)).1
    (by decide) (by decide), ?_, ?_⟩
  · exact ((c4_method_token_table c4Engine RequestState.mk0 rfl).2 rfl).1
  · exact ((c4_method_token_table c4Engine RequestState.mk0 rfl).2 rfl).2

/-- C1 counterexample: on `c1Engine` (token "FOO", outside the known
set) and the attached request `c1State`, two `getMethod` calls both
return UNKNOWN, but the engine's method-token read is performed twice —
the claim says the engine handle is queried at most once; the unknown
default is NOT cached, because an unrecognized token assigns nothing to
the `InitializableValue` field. -/
theorem c1_counterexample :
    (Request.getMethod c1Engine c1State).result = HttpMethod.UNKNOWN ∧
    (Request.getMethod c1Engine
        (Request.getMethod c1Engine c1State).state).result =
      HttpMethod.UNKNOWN ∧
    (Request.getMethod c1Engine c1State).engineQueries +
      (Request.getMethod c1Engine
        (Request.getMethod c1Engine c1State).state).engineQueries = 2 := by
  decide

/-- C1 (amended): on an attached request whose method cache is
uninitialized and whose engine token is outside the known set, both
`getMethod` calls return UNKNOWN and leave the state unchanged, but
EACH call performs one engine method-token read (two in total): the
unknown default is not cached after an unrecognized lookup. -/
theorem c1_unknown_token_requeries (e : Engine) (s : RequestState)
    (b l : Handle)
    (hm : s.method = ⟨.UNKNOWN, false⟩)
    (hb : s.hdr_buf = some b) (hl : s.hdr_loc = some l)
    (htok : ∀ t, e.httpHdrMethodGet s.hdr_buf s.hdr_loc = some t →
      lookupToken methodTable t = none) :
    (Request.getMethod e s).state = s ∧
    (Request.getMethod e s).result = HttpMethod.UNKNOWN ∧
    (Request.getMethod e s).engineQueries = 1 ∧
    (Request.getMethod e (Request.getMethod e s).state).result =
      HttpMethod.UNKNOWN ∧
    (Request.getMethod e (Request.getMethod e s).state).engineQueries =
      1 := by
  have key : (Request.getMethod e s).state = s ∧
      (Request.getMethod e s).result = HttpMethod.UNKNOWN ∧
      (Request.getMethod e s).engineQueries = 1 := by
    unfold Request.getMethod
    cases htok2 : e.httpHdrMethodGet s.hdr_buf s.hdr_loc with
    | none => simp [hm, hb, hl]
    | some t =>
      have hn : lookupToken methodTable t = none := htok t htok2
      by_cases hlen : t.length = 0
      · simp [hm, hb, hl, hlen]
      · simp [hm, hb, hl, hlen, methodFromToken_unknown s t hn]
  obtain ⟨k1, k2, k3⟩ := key
  refine ⟨k1, k2, k3, ?_, ?_⟩
  · rw [k1]
    exact k2
  · rw [k1]
    exact k3

/-- C1 witness (for the amended claim): the concrete unrecognized token
"FOO" on an attached request. -/
theorem c1_witness :
    (Request.getMethod c1Engine c1State).state = c1State ∧
    (Request.getMethod c1Engine c1State).result = HttpMethod.UNKNOWN ∧
    (Request.getMethod c1Engine c1State).engineQueries = 1 ∧
    (Request.getMethod c1Engine
        (Request.getMethod c1Engine c1State).state).result =
      HttpMethod.UNKNOWN ∧
    (Request.getMethod c1Engine
        (Request.getMethod c1Engine c1State).state).engineQueries = 1 :=
  c1_unknown_token_requeries c1Engine c1State 1 2 (by decide) (by decide)
    (by decide)
    (by
      intro t ht
      have h2 : some "FOO" = some t := ht
      cases h2
      decide)

/-- C3 counterexample: on `c3Engine`, where `TSUrlCreate` fails, the
standalone-constructed request `c3State` owns its buffer
(`destroy_buf = true`), yet its destructor performs no engine call at
all — in particular it does not destroy the private buffer — because
the whole destructor body is guarded by `url_loc_` being non-null.
This falsifies the claim that destruction of every owning Request
releases the URL location and destroys the buffer. -/
theorem c3_counterexample :
    c3State.destroy_buf = true ∧
    Request.destruct c3State = [] := by
  decide

/-- C3 (amended): destruction acts only when the URL location handle is
set. If the descriptor owns its buffer and the URL location was
created, the destructor releases the location with a null parent and
then destroys the private buffer; if it was attached and URL extraction
succeeded, it releases the location against the shared header location
and never destroys the buffer; if the URL location is unset (e.g. the
engine failed to create or extract it), the destructor performs no
release and does not destroy the buffer even when owned. -/
theorem c3_destructor_paths (e : Engine) (url : String) (m : HttpMethod)
    (v : HttpVersion) (b l : Handle) :
    (∀ loc, e.urlCreate e.mbufferCreate = some loc →
      Request.destruct (Request.mkStandalone e url m v).1 =
        [.releaseMLoc (some e.mbufferCreate) none loc,
         .destroyBuffer (some e.mbufferCreate)]) ∧
    (∀ u, e.httpHdrUrlGet (some b) (some l) = some u →
      Request.destruct
          (Request.init e RequestState.mk0 (some b) (some l)).1 =
        [.releaseMLoc (some b) (some l) u]) ∧
    (∀ s : RequestState, s.url_loc = none → Request.destruct s = []) := by
  refine ⟨?_, ?_, ?_⟩
  · intro loc hc
    unfold Request.mkStandalone
    rw [hc]
    by_cases hp : e.urlParse e.mbufferCreate loc url <;>
      simp [hp, Request.destruct]
  · intro u hu
    simp [Request.init, RequestState.mk0, hu, Request.destruct]
  · intro s hs
    simp [Request.destruct, hs]

/-- C3 witness (for the amended claim): concrete owning and attached
destructions, and the unset-URL no-op destruction. -/
theorem c3_witness :
    Request.destruct
        (Request.mkStandalone c3wEngine "http://e/" .GET .HTTP_1_1).1 =
      [.releaseMLoc (some 1) none 5, .destroyBuffer (some 1)] ∧
    Request.destruct
        (Request.init c3wEngine RequestState.mk0 (some 2) (some 3)).1 =
      [.releaseMLoc (some 2) (some 3) 7] ∧
    Request.destruct RequestState.mk0 = [] :=
  ⟨(c3_destructor_paths c3wEngine "http://e/" .GET .HTTP_1_1 2 3).1 5 rfl,
   (c3_destructor_paths c3wEngine "http://e/" .GET .HTTP_1_1 2 3).2.1 7 rfl,
   (c3_destructor_paths c3wEngine "http://e/" .GET .HTTP_1_1 2 3).2.2
     RequestState.mk0 rfl⟩

/-- C10 counterexample: `init(NULL, NULL)` on a fresh default-constructed
request is not error-free — on an engine whose URL extraction yields no
location for null handles (the realistic behavior), the call logs the
URL-extraction error.  The claim's "reports no error" is false; only
the reinitialization error is absent. -/
theorem c10_counterexample :
    (Request.init c10Engine RequestState.mk0 none none).2 =
      [LogEvent.error "TSHttpHdrUrlGet returned a null url loc"] ∧
    (Request.init c10Engine RequestState.mk0 none none).2 ≠ [] := by
  decide

/-- C10 (amended): the reinitialization guard tests only the stored
handles and performs no argument validation, so `init(NULL, NULL)` on a
fresh request is accepted — no reinitialization error is reported
(though a URL-extraction error may still be logged), both stored
handles stay null, and a subsequent `init` call is again accepted
rather than rejected as reinitialization (it attaches normally). -/
theorem c10_null_init_not_rejected (e : Engine) (b l : Handle) :
    LogEvent.error "Reinitialization" ∉
      (Request.init e RequestState.mk0 none none).2 ∧
    (Request.init e RequestState.mk0 none none).1.hdr_buf = none ∧
    (Request.init e RequestState.mk0 none none).1.hdr_loc = none ∧
    LogEvent.error "Reinitialization" ∉
      (Request.init e (Request.init e RequestState.mk0 none none).1
        (some b) (some l)).2 ∧
    (Request.init e (Request.init e RequestState.mk0 none none).1
        (some b) (some l)).1.hdr_buf = some b ∧
    (Request.init e (Request.init e RequestState.mk0 none none).1
        (some b) (some l)).1.hdr_loc = some l := by
  cases h1 : e.httpHdrUrlGet none none <;>
    cases h2 : e.httpHdrUrlGet (some b) (some l) <;>
      simp [Request.init, RequestState.mk0, h1, h2]

/-- C10 witness (for the amended claim): concrete null-null `init`
followed by a normally-attaching second `init`. -/
theorem c10_witness :
    LogEvent.error "Reinitialization" ∉
      (Request.init c10Engine RequestState.mk0 none none).2 ∧
    (Request.init c10Engine RequestState.mk0 none none).1.hdr_buf =
      none ∧
    (Request.init c10Engine RequestState.mk0 none none).1.hdr_loc =
      none ∧
    LogEvent.error "Reinitialization" ∉
      (Request.init c10Engine
        (Request.init c10Engine RequestState.mk0 none none).1
        (some 8) (some 9)).2 ∧
    (Request.init c10Engine
        (Request.init c10Engine RequestState.mk0 none none).1
        (some 8) (some 9)).1.hdr_buf = some 8 ∧
    (Request.init c10Engine
        (Request.init c10Engine RequestState.mk0 none none).1
        (some 8) (some 9)).1.hdr_loc = some 9 :=
  c10_null_init_not_rejected c10Engine 8 9
